import Mathlib

/-!
Verification development for the JOWA job-board backend (src/backend.py).

The backend is a Flask application with five HTTP handlers over a
PostgreSQL database.  We embed the data model (employers, jobs, payments,
users) as Lean structures, the database as lists of rows plus identity
counters, and each handler as a pure function of the request data, the
connection outcome and an exception flag.  SQL semantics (filter, order
by ... desc, limit, left join, the CASE posted-label expression and the
TO_CHAR date formats) are translated directly; Python truthiness tests
(`x or default`, `if not data`, `if job[4]`) are translated by explicit
helper functions that treat None, 0 and "" as falsy exactly as Python
does.  Timestamps are epoch seconds (Int); dates before 1970 are outside
the modelled range.
-/

namespace Jowa

/-- Python `x or default` on an optional string: `None` and `""` are falsy. -/
def pyOrStr (o : Option String) (d : String) : String :=
  match o with
  | none => d
  | some s => if s = "" then d else s

/-- Python str() / f-string interpolation of an optional string: `None` prints as "None". -/
def pyStr (o : Option String) : String :=
  match o with
  | none => "None"
  | some s => s

/-- Python `n or 0` on a number already defaulted by SQL: 0 stays 0, anything else is itself. -/
def pyOrZero (n : Int) : Int :=
  if n = 0 then 0 else n

/-- A row of the employers table: id, phone_number, company_name, business_type. -/
structure Employer where
  id : Int
  phone_number : String
  company_name : String
  business_type : String
deriving Repr, DecidableEq

/-- A row of the jobs table.  Nullable columns are Option. -/
structure Job where
  id : Int
  employer_id : Int
  title : Option String
  description : Option String
  location : Option String
  payment_amount : Option Int
  payment_type : Option String
  status : String
  created_at : Int
deriving Repr, DecidableEq

/-- A row of the payments table (the columns the service reads). -/
structure Payment where
  purpose : Option String
  amount : Int
  status : String
  created_at : Int
  transaction_id : Option String
deriving Repr, DecidableEq

/-- The database state visible to this service.  `users` is only ever
counted (SELECT COUNT(*) FROM users), so it is modelled as the row count.
`nextEmployerId` and `nextJobId` model the serial identity columns
returned by the INSERT ... RETURNING id statements. -/
structure DB where
  users : Nat
  employers : List Employer
  jobs : List Job
  payments : List Payment
  nextEmployerId : Int
  nextJobId : Int
deriving Repr, DecidableEq

/-- Insertion of one element into a list sorted descending by `key`
(ties keep the new element first, as a deterministic model of
ORDER BY key DESC). -/
def insertDescBy (key : α → Int) (a : α) : List α → List α
  | [] => [a]
  | b :: bs => if key b ≤ key a then a :: b :: bs else b :: insertDescBy key a bs

/-- Sort a list descending by `key`: the model of SQL ORDER BY key DESC. -/
def sortDescBy (key : α → Int) : List α → List α
  | [] => []
  | a :: as => insertDescBy key a (sortDescBy key as)

/-- Hour field of a PostgreSQL interval of `secs` seconds:
EXTRACT(HOUR FROM interval) is the hours component after splitting off
whole days. -/
def extractHour (secs : Int) : Int :=
  secs / 3600 % 24

/-- Gregorian calendar date (year, month, day) of a day count since
1970-01-01 (civil-from-days). -/
def civilFromDays (z : Nat) : Nat × Nat × Nat :=
  let w := z + 719468
  let era := w / 146097
  let doe := w % 146097
  let yoe := (doe - doe / 1460 + doe / 36524 - doe / 146096) / 365
  let doy := doe - (365 * yoe + yoe / 4 - yoe / 100)
  let mp := (5 * doy + 2) / 153
  let d := doy - (153 * mp + 2) / 5 + 1
  let m := if mp < 10 then mp + 3 else mp + 3 - 12
  (if m ≤ 2 then era * 400 + yoe + 1 else era * 400 + yoe, m, d)

/-- PostgreSQL TO_CHAR month abbreviation 'Mon'. -/
def monthAbbrev (m : Nat) : String :=
  match m with
  | 1 => "Jan"
  | 2 => "Feb"
  | 3 => "Mar"
  | 4 => "Apr"
  | 5 => "May"
  | 6 => "Jun"
  | 7 => "Jul"
  | 8 => "Aug"
  | 9 => "Sep"
  | 10 => "Oct"
  | 11 => "Nov"
  | _ => "Dec"

/-- Zero-padded two-digit rendering (TO_CHAR 'DD'). -/
def pad2 (n : Nat) : String :=
  if n < 10 then "0" ++ toString n else toString n

/-- Zero-padded four-digit rendering (TO_CHAR 'YYYY', years in range 1970+). -/
def pad4 (n : Nat) : String :=
  if n < 10 then "000" ++ toString n
  else if n < 100 then "00" ++ toString n
  else if n < 1000 then "0" ++ toString n
  else toString n

/-- TO_CHAR(ts, 'DD Mon YYYY') on an epoch-seconds timestamp. -/
def toCharDDMonYYYY (ts : Int) : String :=
  match civilFromDays (ts.toNat / 86400) with
  | (y, m, d) => pad2 d ++ " " ++ monthAbbrev m ++ " " ++ pad4 y

/-- TO_CHAR(ts, 'YYYY-MM-DD') on an epoch-seconds timestamp. -/
def toCharYYYYMMDD (ts : Int) : String :=
  match civilFromDays (ts.toNat / 86400) with
  | (y, m, d) => pad4 y ++ "-" ++ pad2 m ++ "-" ++ pad2 d

/-- The CASE expression of the jobs query (src/backend.py lines 162-167):
age under one hour gives "Just now"; age under 24 hours gives the whole
hours elapsed followed by " hours ago"; otherwise the calendar date
formatted 'DD Mon YYYY'. -/
def postedLabel (now created : Int) : String :=
  if now - 3600 < created then "Just now"
  else if now - 86400 < created then toString (extractHour (now - created)) ++ " hours ago"
  else toCharDDMonYYYY created

/-- The salary string of a shaped job row (line 186):
Python tests the amount for truthiness, so None and 0 both give
"Negotiable"; otherwise the f-string "K{amount}/{payment_type}". -/
def renderSalary (amount : Option Int) (ptype : Option String) : String :=
  match amount with
  | none => "Negotiable"
  | some n => if n = 0 then "Negotiable" else "K" ++ toString n ++ "/" ++ pyStr ptype

/-- A shaped job object of the /api/jobs response.  `title` and `id` are
passed through raw (no default), every other field is a string after
defaulting. -/
structure JobJson where
  id : Int
  title : Option String
  description : String
  location : String
  salary : String
  type : String
  category : String
  company : String
  posted : String
deriving Repr, DecidableEq

/-- The LEFT JOIN employers ON j.employer_id = e.id of the jobs query:
the company_name of the matching employer row, if any. -/
def jobCompany (db : DB) (j : Job) : Option String :=
  (db.employers.find? (fun e => e.id == j.employer_id)).map (fun e => e.company_name)

/-- Row shaping of the /api/jobs handler (lines 180-191). -/
def shapeJob (now : Int) (db : DB) (j : Job) : JobJson :=
  { id := j.id
    title := j.title
    description := pyOrStr j.description "No description available"
    location := pyOrStr j.location "Not specified"
    salary := renderSalary j.payment_amount j.payment_type
    type := pyOrStr j.payment_type "Not specified"
    category := "general"
    company := pyOrStr (jobCompany db j) "Company not specified"
    posted := pyOrStr (some (postedLabel now j.created_at)) "Recently" }

/-- The rows selected by the jobs query: status active, newest first,
at most 10. -/
def selectedJobs (db : DB) : List Job :=
  (sortDescBy (fun j => j.created_at) (db.jobs.filter (fun j => j.status == "active"))).take 10

/-- The hardcoded mock job list returned by /api/jobs when the database
is unavailable or any exception is raised (lines 131-154 and 198-221,
identical literals). -/
def mockJobs : List JobJson :=
  [ { id := 1
      title := some "Construction Worker"
      description := "General construction work at building sites."
      location := "Lusaka"
      salary := "K120/day"
      type := "Daily"
      category := "construction"
      company := "ZamBuild Construction"
      posted := "2 hours ago" },
    { id := 2
      title := some "Farm Assistant"
      description := "Assist with farming activities."
      location := "Ndola"
      salary := "K80/day"
      type := "Daily"
      category := "farming"
      company := "Green Valley Farms"
      posted := "5 hours ago" } ]

/-- The /api/jobs handler (lines 124-221).  `conn` is the result of
get_db_connection (None on any connection failure); `exc` models an
exception raised at any later step, which the handler catches and
answers with the same mock list it uses when there is no connection.
The result is the HTTP status and the JSON array. -/
def get_jobs (now : Int) (conn : Option DB) (exc : Bool) : Nat × List JobJson :=
  if exc then (200, mockJobs)
  else
    match conn with
    | none => (200, mockJobs)
    | some db => (200, (selectedJobs db).map (fun j => shapeJob now db j))

/-- A shaped payment object of the /api/payments response. -/
structure PaymentJson where
  description : Option String
  amount : String
  status : String
  date : String
  reference : String
deriving Repr, DecidableEq

/-- Row shaping of the /api/payments handler (lines 247-254). -/
def shapePayment (p : Payment) : PaymentJson :=
  { description := p.purpose
    amount := "K" ++ toString p.amount
    status := p.status
    date := toCharYYYYMMDD p.created_at
    reference := pyOrStr p.transaction_id "N/A" }

/-- The rows selected by the payments query: newest first, at most 5. -/
def selectedPayments (db : DB) : List Payment :=
  (sortDescBy (fun p => p.created_at) db.payments).take 5

/-- The /api/payments handler (lines 223-260): no connection or any
exception both give the empty list with HTTP 200; otherwise the shaped
selected rows. -/
def get_payments (conn : Option DB) (exc : Bool) : Nat × List PaymentJson :=
  if exc then (200, [])
  else
    match conn with
    | none => (200, [])
    | some db => (200, (selectedPayments db).map shapePayment)

/-- A JSON number as carried by the stats response: null, an integer, or
a value coerced with Python float(). -/
inductive JNum where
  | jnull : JNum
  | jint : Int → JNum
  | jfloat : Int → JNum
deriving Repr, DecidableEq

/-- SUM(amount) over payments with status completed, with COALESCE(.., 0)
(line 102). -/
def completedRevenue (db : DB) : Int :=
  ((db.payments.filter (fun p => p.status == "completed")).map (fun p => p.amount)).sum

/-- The /api/stats response body and status.  Fields absent from a branch
of the handler are none / jnull. -/
structure StatsOut where
  status : Nat
  statusStr : String
  total_users : Option Int
  active_jobs : Option Int
  total_employers : Option Int
  total_revenue : JNum
  message : Option String
  error : Option String
deriving Repr, DecidableEq

/-- The /api/stats handler (lines 79-122).  Each COUNT/SUM result is
guarded with Python `or 0` and the revenue sum is coerced with float().
`exc` models an exception during query execution: the handler returns an
offline status with the error text and no partial results. -/
def get_stats (conn : Option DB) (exc : Option String) : StatsOut :=
  match conn with
  | none =>
    { status := 503, statusStr := "offline", total_users := none, active_jobs := none,
      total_employers := none, total_revenue := JNum.jnull,
      message := some "Database not connected", error := none }
  | some db =>
    match exc with
    | some m =>
      { status := 500, statusStr := "offline", total_users := none, active_jobs := none,
        total_employers := none, total_revenue := JNum.jnull,
        message := none, error := some m }
    | none =>
      { status := 200
        statusStr := "online"
        total_users := some (pyOrZero (Int.ofNat db.users))
        active_jobs := some (pyOrZero (Int.ofNat (db.jobs.filter (fun j => j.status == "active")).length))
        total_employers := some (pyOrZero (Int.ofNat db.employers.length))
        total_revenue := JNum.jfloat (pyOrZero (completedRevenue db))
        message := none
        error := none }

/-- The clock readings the process can take: datetime.now() reads the
process-local wall clock, datetime.utcnow() would read UTC.  The two
differ whenever the server timezone is not UTC. -/
structure Clock where
  localNow : String
  utcNow : String

/-- The /api/health response: HTTP status, the status and database
strings, the error message of the exception branch, the timestamp the
handler embedded, and whether the handler closed the connection it
acquired. -/
structure HealthOut where
  status : Nat
  statusStr : String
  database : Option String
  message : Option String
  timestamp : String
  connClosed : Bool
deriving Repr, DecidableEq

/-- The /api/health handler (lines 54-76): a connection is closed
immediately and reported healthy; no connection is HTTP 503 unhealthy;
an unexpected exception is HTTP 500 with the exception text.  All three
branches stamp the body with datetime.now(), the local clock. -/
def health_check (clock : Clock) (conn : Option Unit) (exc : Option String) : HealthOut :=
  match exc with
  | some m =>
    { status := 500, statusStr := "error", database := none, message := some m,
      timestamp := clock.localNow, connClosed := false }
  | none =>
    match conn with
    | some _ =>
      { status := 200, statusStr := "healthy", database := some "connected", message := none,
        timestamp := clock.localNow, connClosed := true }
    | none =>
      { status := 503, statusStr := "unhealthy", database := some "disconnected", message := none,
        timestamp := clock.localNow, connClosed := false }

/-- The parsed JSON body of a create_job request; each field is the
result of data.get on the corresponding key. -/
structure JobReq where
  phone : Option String
  company : Option String
  title : Option String
  description : Option String
  location : Option String
  salary : Option Int
  type : Option String
deriving Repr, DecidableEq

/-- The default phone number of line 281. -/
def defaultPhone : String := "+260570528201"

/-- SELECT id FROM employers WHERE phone_number = %s, fetchone (line 282):
the id of the first employer row with that phone number. -/
def lookupEmployerId (db : DB) (phone : String) : Option Int :=
  (db.employers.find? (fun e => e.phone_number == phone)).map (fun e => e.id)

/-- The get-or-create employer block of create_job (lines 280-293): reuse
the id of an existing row with the request phone, or insert one new row
with the request company (default "Individual Employer") and business
type "Various", returning the generated id. -/
def getOrCreateEmployer (db : DB) (phone : String) (company : String) : Int × DB :=
  match lookupEmployerId db phone with
  | some eid => (eid, db)
  | none =>
    (db.nextEmployerId,
     { db with
        employers := db.employers ++ [{ id := db.nextEmployerId, phone_number := phone,
                                        company_name := company, business_type := "Various" }]
        nextEmployerId := db.nextEmployerId + 1 })

/-- Outcome of a create_job request: HTTP status, the database state
after the request (None when no connection was available), the returned
job_id, and whether get_db_connection was ever called. -/
structure CreateResult where
  status : Nat
  db : Option DB
  job_id : Option Int
  acquired : Bool
deriving Repr, DecidableEq

/-- The /api/create_job handler (lines 262-327).  A falsy parsed body
(absent JSON or an empty object, modelled as none) is rejected with
HTTP 400 before the connection is acquired; then the employer is looked
up or created by phone number and one job row is inserted with status
"active", salary defaulting to 0 and type to "daily". -/
def create_job (now : Int) (body : Option JobReq) (conn : Option DB) : CreateResult :=
  match body with
  | none => { status := 400, db := conn, job_id := none, acquired := false }
  | some data =>
    match conn with
    | none => { status := 503, db := none, job_id := none, acquired := true }
    | some db =>
      let phone := data.phone.getD defaultPhone
      let r := getOrCreateEmployer db phone (data.company.getD "Individual Employer")
      let db1 := r.2
      let j : Job :=
        { id := db1.nextJobId
          employer_id := r.1
          title := data.title
          description := data.description
          location := data.location
          payment_amount := some (data.salary.getD 0)
          payment_type := some (data.type.getD "daily")
          status := "active"
          created_at := now }
      { status := 200
        db := some { db1 with jobs := db1.jobs ++ [j], nextJobId := db1.nextJobId + 1 }
        job_id := some db1.nextJobId
        acquired := true }

/-- Membership in a descending insertion. -/
theorem mem_insertDescBy {key : α → Int} {a b : α} {l : List α} :
    b ∈ insertDescBy key a l ↔ b = a ∨ b ∈ l := by
  induction l with
  | nil => simp [insertDescBy]
  | cons c cs ih =>
    simp only [insertDescBy]
    split
    · simp [List.mem_cons]
    · simp only [List.mem_cons, ih]
      tauto

/-- Descending insertion preserves descending sortedness. -/
theorem pairwise_insertDescBy {key : α → Int} {a : α} {l : List α}
    (h : l.Pairwise (fun x y => key y ≤ key x)) :
    (insertDescBy key a l).Pairwise (fun x y => key y ≤ key x) := by
  induction l with
  | nil => simp [insertDescBy]
  | cons c cs ih =>
    rw [List.pairwise_cons] at h
    obtain ⟨hc, hcs⟩ := h
    simp only [insertDescBy]
    split
    · rename_i hle
      refine List.pairwise_cons.mpr ⟨?_, List.pairwise_cons.mpr ⟨hc, hcs⟩⟩
      intro y hy
      rcases List.mem_cons.mp hy with rfl | hy'
      · exact hle
      · exact le_trans (hc y hy') hle
    · rename_i hgt
      refine List.pairwise_cons.mpr ⟨?_, ih hcs⟩
      intro y hy
      rcases mem_insertDescBy.mp hy with rfl | hy'
      · omega
      · exact hc y hy'

/-- The output of sortDescBy is sorted descending by the key. -/
theorem pairwise_sortDescBy (key : α → Int) (l : List α) :
    (sortDescBy key l).Pairwise (fun x y => key y ≤ key x) := by
  induction l with
  | nil => simp [sortDescBy]
  | cons a as ih => exact pairwise_insertDescBy ih

/-- The job row inserted by create_job for request `data` under employer
`eid` with generated id `jid` at time `now` (lines 296-308). -/
def newJobRow (now : Int) (data : JobReq) (jid eid : Int) : Job :=
  { id := jid
    employer_id := eid
    title := data.title
    description := data.description
    location := data.location
    payment_amount := some (data.salary.getD 0)
    payment_type := some (data.type.getD "daily")
    status := "active"
    created_at := now }

/-- The employer row inserted by create_job when the phone is unknown
(lines 286-291). -/
def newEmployerRow (eid : Int) (phone company : String) : Employer :=
  { id := eid
    phone_number := phone
    company_name := company
    business_type := "Various" }

/-- The database state after create_job reuses an existing employer
`eid`: only the job row is appended. -/
def dbAfterReuse (now : Int) (data : JobReq) (db : DB) (eid : Int) : DB :=
  { db with
    jobs := db.jobs ++ [newJobRow now data db.nextJobId eid]
    nextJobId := db.nextJobId + 1 }

/-- The database state after create_job inserts a new employer row and
the job row referencing it. -/
def dbAfterInsert (now : Int) (data : JobReq) (db : DB) : DB :=
  { db with
    employers := db.employers ++
      [newEmployerRow db.nextEmployerId (data.phone.getD defaultPhone)
        (data.company.getD "Individual Employer")]
    nextEmployerId := db.nextEmployerId + 1
    jobs := db.jobs ++ [newJobRow now data db.nextJobId db.nextEmployerId]
    nextJobId := db.nextJobId + 1 }

/-- create_job when the request phone is already present: the employer
table is untouched and the job row references the found id. -/
theorem create_job_eq_found (now : Int) (data : JobReq) (db : DB) (eid : Int)
    (hE : lookupEmployerId db (data.phone.getD defaultPhone) = some eid) :
    create_job now (some data) (some db) =
      { status := 200
        db := some (dbAfterReuse now data db eid)
        job_id := some db.nextJobId
        acquired := true } := by
  simp [create_job, getOrCreateEmployer, hE, newJobRow, dbAfterReuse]

/-- create_job when the request phone is absent: one employer row is
appended and the job row references its generated id. -/
theorem create_job_eq_notfound (now : Int) (data : JobReq) (db : DB)
    (hE : lookupEmployerId db (data.phone.getD defaultPhone) = none) :
    create_job now (some data) (some db) =
      { status := 200
        db := some (dbAfterInsert now data db)
        job_id := some db.nextJobId
        acquired := true } := by
  simp [create_job, getOrCreateEmployer, hE, newJobRow, newEmployerRow, dbAfterInsert]

/-- After inserting an employer row with the request phone, a lookup of
that phone succeeds with the new id. -/
theorem lookupEmployerId_append_self (db : DB) (phone company : String) (eid : Int)
    (hE : lookupEmployerId db phone = none) :
    lookupEmployerId
      { db with employers := db.employers ++ [newEmployerRow eid phone company] }
      phone = some eid := by
  have hfind : db.employers.find? (fun e => e.phone_number == phone) = none := by
    unfold lookupEmployerId at hE
    exact Option.map_eq_none.mp hE
  unfold lookupEmployerId
  simp only [List.find?_append, hfind, Option.none_or]
  simp [List.find?, newEmployerRow]

/-- A sample create_job request body used to instantiate theorems. -/
def sampleReq : JobReq :=
  { phone := some "+260999", company := none, title := some "T",
    description := none, location := none, salary := some 120, type := some "daily" }

/-- The empty database used to instantiate theorems. -/
def emptyDb : DB :=
  { users := 0, employers := [], jobs := [], payments := [], nextEmployerId := 1, nextJobId := 1 }

/-- A sample job row used to instantiate theorems. -/
def sampleJob : Job :=
  { id := 7, employer_id := 1, title := some "T", description := none,
    location := none, payment_amount := some 120, payment_type := some "daily",
    status := "active", created_at := 0 }

/-- A database with one active job, used to instantiate theorems. -/
def sampleJobDb : DB :=
  { users := 0, employers := [], jobs := [sampleJob], payments := [],
    nextEmployerId := 1, nextJobId := 8 }

/-- A database with two payments, used to instantiate theorems. -/
def samplePayDb : DB :=
  { users := 0, employers := [], jobs := []
    payments :=
      [ { purpose := some "Job posting", amount := 50, status := "completed",
          created_at := 100, transaction_id := none },
        { purpose := some "Job posting", amount := 80, status := "pending",
          created_at := 300, transaction_id := some "TX1" } ]
    nextEmployerId := 1, nextJobId := 1 }

/-- C2: the job listing handler never surfaces an error: with no database
connection, or with an exception raised at any step, /api/jobs answers
HTTP 200 with the same fixed two-item mock list (ids 1 and 2, titles
"Construction Worker" and "Farm Assistant"), identical on every call and
identical between the no-connection branch and the exception branch. -/
theorem get_jobs_fallback_fixed (now now2 : Int) (conn conn2 : Option DB) (exc : Bool)
    (h : conn = none ∨ exc = true) :
    get_jobs now conn exc = (200, mockJobs) ∧
    mockJobs.map (fun j => j.id) = [1, 2] ∧
    mockJobs.map (fun j => j.title) = [some "Construction Worker", some "Farm Assistant"] ∧
    get_jobs now2 none false = get_jobs now conn exc ∧
    get_jobs now2 conn2 true = get_jobs now conn exc := by
  have h1 : get_jobs now conn exc = (200, mockJobs) := by
    rcases h with rfl | rfl
    · cases exc <;> simp [get_jobs]
    · simp [get_jobs]
  refine ⟨h1, by decide, by decide, ?_, ?_⟩
  · rw [h1]; rfl
  · rw [h1]; cases conn2 <;> rfl

/-- Witness for C2 at the concrete no-connection input. -/
theorem get_jobs_fallback_fixed_witness :
    ((none : Option DB) = none ∨ false = true) ∧
    get_jobs 0 none false = (200, mockJobs) := by
  refine ⟨Or.inl rfl, ?_⟩
  exact (get_jobs_fallback_fixed 0 0 none none false (Or.inl rfl)).1

/-- C3: a falsy parsed body makes create_job answer HTTP 400 with no
job id, with the database state passed through untouched and the
connection never acquired. -/
theorem create_job_empty_body_rejected (now : Int) (conn : Option DB) :
    create_job now none conn =
      { status := 400, db := conn, job_id := none, acquired := false } := by
  rfl

/-- C5: the posted label of a listed job as a function of its age at
query time: under one hour it is "Just now"; from one hour up to 24
hours it is the whole hours elapsed followed by " hours ago"; from 24
hours on it is the creation date formatted DD Mon YYYY. -/
theorem posted_label_cases (now created : Int) :
    (now - created < 3600 → postedLabel now created = "Just now") ∧
    (3600 ≤ now - created → now - created < 86400 →
      postedLabel now created = toString ((now - created) / 3600) ++ " hours ago") ∧
    (86400 ≤ now - created → postedLabel now created = toCharDDMonYYYY created) := by
  refine ⟨?_, ?_, ?_⟩
  · intro h
    unfold postedLabel
    rw [if_pos (by omega)]
  · intro h1 h2
    unfold postedLabel
    rw [if_neg (by omega), if_pos (by omega)]
    have hx : extractHour (now - created) = (now - created) / 3600 := by
      unfold extractHour
      omega
    rw [hx]
  · intro h
    unfold postedLabel
    rw [if_neg (by omega), if_neg (by omega)]

/-- Witness for C5: 30 minutes old is "Just now", 3 hours old is
"3 hours ago", 30 days old is the calendar date "10 Aug 2001". -/
theorem posted_label_cases_witness :
    ((1000000000 : Int) - 999998200 < 3600 ∧ postedLabel 1000000000 999998200 = "Just now") ∧
    ((3600 : Int) ≤ 1000000000 - 999989200 ∧ (1000000000 : Int) - 999989200 < 86400 ∧
      postedLabel 1000000000 999989200 =
        toString ((1000000000 - 999989200 : Int) / 3600) ++ " hours ago") ∧
    ((86400 : Int) ≤ 1000000000 - 997408000 ∧
      postedLabel 1000000000 997408000 = toCharDDMonYYYY 997408000) ∧
    postedLabel 1000000000 999989200 = "3 hours ago" ∧
    toCharDDMonYYYY 997408000 = "10 Aug 2001" := by
  refine ⟨⟨by decide, (posted_label_cases 1000000000 999998200).1 (by decide)⟩,
    ⟨by decide, by decide, (posted_label_cases 1000000000 999989200).2.1 (by decide) (by decide)⟩,
    ⟨by decide, (posted_label_cases 1000000000 997408000).2.2 (by decide)⟩, by decide, by decide⟩

/-- C9 counterexample: the fallback branch of /api/jobs returns mock
objects whose category is "construction" and "farming", so not every
job object of every /api/jobs response has category "general". -/
theorem get_jobs_category_counterexample :
    ¬ ∀ j ∈ (get_jobs 0 none false).2, j.category = "general" := by
  decide

/-- C9 (amended): every job object produced by the live-query branch of
the job listing handler has category "general"; the mock fallback
objects instead carry the hardcoded categories "construction" and
"farming". -/
theorem get_jobs_live_category_general (now : Int) (db : DB) :
    (∀ j ∈ (get_jobs now (some db) false).2, j.category = "general") ∧
    mockJobs.map (fun j => j.category) = ["construction", "farming"] := by
  refine ⟨?_, by decide⟩
  intro j hj
  have hj' : ∃ a ∈ selectedJobs db, shapeJob now db a = j := List.mem_map.mp hj
  obtain ⟨a, _, rfl⟩ := hj'
  rfl

/-- Witness for C9's amended theorem on a database with one active job. -/
theorem get_jobs_live_category_general_witness :
    shapeJob 0 sampleJobDb sampleJob ∈ (get_jobs 0 (some sampleJobDb) false).2 ∧
    (shapeJob 0 sampleJobDb sampleJob).category = "general" := by
  refine ⟨by decide, ?_⟩
  exact (get_jobs_live_category_general 0 sampleJobDb).1 _ (by decide)

/-- C6: the payment listing handler silently degrades: with no
connection or with any exception it answers HTTP 200 with the empty
list; on success it answers HTTP 200 with the shaped selected rows — at
most 5, newest first, amount rendered "K<amount>", missing transaction
reference replaced by "N/A". -/
theorem get_payments_spec (conn : Option DB) (exc : Bool) (db : DB)
    (h : conn = none ∨ exc = true) :
    get_payments conn exc = (200, []) ∧
    (get_payments (some db) false).1 = 200 ∧
    (get_payments (some db) false).2 = (selectedPayments db).map shapePayment ∧
    (get_payments (some db) false).2.length ≤ 5 ∧
    (selectedPayments db).Pairwise (fun a b => b.created_at ≤ a.created_at) ∧
    (∀ p ∈ selectedPayments db,
       (shapePayment p).amount = "K" ++ toString p.amount ∧
       (p.transaction_id = none → (shapePayment p).reference = "N/A")) := by
  have h1 : get_payments conn exc = (200, []) := by
    rcases h with rfl | rfl
    · cases exc <;> rfl
    · cases conn <;> rfl
  refine ⟨h1, rfl, rfl, ?_, ?_, ?_⟩
  · show ((selectedPayments db).map shapePayment).length ≤ 5
    rw [List.length_map]
    unfold selectedPayments
    rw [List.length_take]
    omega
  · exact List.Pairwise.sublist (List.take_sublist _ _)
      (pairwise_sortDescBy (fun p => p.created_at) db.payments)
  · intro p hp
    refine ⟨rfl, ?_⟩
    intro hn
    simp [shapePayment, pyOrStr, hn]

/-- Witness for C6 at the concrete no-connection input and a two-payment
database. -/
theorem get_payments_spec_witness :
    ((none : Option DB) = none ∨ false = true) ∧
    get_payments none false = (200, []) ∧
    (get_payments (some samplePayDb) false).2.length ≤ 5 := by
  refine ⟨Or.inl rfl, ?_, ?_⟩
  · exact (get_payments_spec none false samplePayDb (Or.inl rfl)).1
  · exact (get_payments_spec none false samplePayDb (Or.inl rfl)).2.2.2.1

/-- A clock reading where the local wall clock is two hours ahead of
UTC, used to instantiate the health-check theorems. -/
def sampleClock : Clock :=
  { localNow := "2026-01-01T02:00:00", utcNow := "2026-01-01T00:00:00" }

/-- C7 counterexample: the health check stamps its body with
datetime.now(), the process-local wall clock; on a server whose local
clock is ahead of UTC the returned timestamp is not the current UTC
timestamp, refuting the claim as stated. -/
theorem health_check_timestamp_not_utc :
    (health_check sampleClock (some ()) none).status = 200 ∧
    (health_check sampleClock (some ()) none).database = some "connected" ∧
    (health_check sampleClock (some ()) none).timestamp ≠ sampleClock.utcNow := by
  refine ⟨rfl, rfl, by decide⟩

/-- C7 (amended): given a reachable database the health check answers
HTTP 200 with database "connected" and the current local-clock
timestamp (datetime.now(), not necessarily UTC), after closing the
acquired connection; given no connection, HTTP 503 with database
"disconnected"; on any unexpected failure, HTTP 500 with the failure's
message text. -/
theorem health_check_spec (clock : Clock) (conn : Option Unit) (exc : Option String) :
    (exc = none → conn = some () →
      health_check clock conn exc =
        { status := 200, statusStr := "healthy", database := some "connected",
          message := none, timestamp := clock.localNow, connClosed := true }) ∧
    (exc = none → conn = none →
      health_check clock conn exc =
        { status := 503, statusStr := "unhealthy", database := some "disconnected",
          message := none, timestamp := clock.localNow, connClosed := false }) ∧
    (∀ m, exc = some m →
      health_check clock conn exc =
        { status := 500, statusStr := "error", database := none,
          message := some m, timestamp := clock.localNow, connClosed := false }) := by
  refine ⟨?_, ?_, ?_⟩
  · rintro rfl rfl
    rfl
  · rintro rfl rfl
    rfl
  · rintro m rfl
    rfl

/-- Witness for C7's amended theorem at the sample clock with a
reachable database. -/
theorem health_check_spec_witness :
    ((none : Option String) = none ∧ (some () : Option Unit) = some ()) ∧
    health_check sampleClock (some ()) none =
      { status := 200, statusStr := "healthy", database := some "connected",
        message := none, timestamp := sampleClock.localNow, connClosed := true } := by
  refine ⟨⟨rfl, rfl⟩, ?_⟩
  exact (health_check_spec sampleClock (some ()) none).1 rfl rfl

/-- C8: a successful /api/stats response carries total_revenue as a
float-coerced value, never null, equal to float 0 when no completed
payment exists; a query exception yields status "offline" with HTTP 500
and no partial results (every aggregate field absent). -/
theorem stats_revenue_float (db : DB) (m : String) :
    ((get_stats (some db) none).status = 200 ∧
     (get_stats (some db) none).total_revenue = JNum.jfloat (pyOrZero (completedRevenue db)) ∧
     (get_stats (some db) none).total_revenue ≠ JNum.jnull ∧
     (db.payments.filter (fun p => p.status == "completed") = [] →
       (get_stats (some db) none).total_revenue = JNum.jfloat 0)) ∧
    ((get_stats (some db) (some m)).status = 500 ∧
     (get_stats (some db) (some m)).statusStr = "offline" ∧
     (get_stats (some db) (some m)).error = some m ∧
     (get_stats (some db) (some m)).total_users = none ∧
     (get_stats (some db) (some m)).active_jobs = none ∧
     (get_stats (some db) (some m)).total_employers = none ∧
     (get_stats (some db) (some m)).total_revenue = JNum.jnull) := by
  refine ⟨⟨rfl, rfl, by simp [get_stats], ?_⟩, rfl, rfl, rfl, rfl, rfl, rfl, rfl⟩
  intro hf
  show JNum.jfloat (pyOrZero (completedRevenue db)) = JNum.jfloat 0
  have hrev : completedRevenue db = 0 := by
    unfold completedRevenue
    rw [hf]
    rfl
  rw [hrev]
  rfl

/-- Witness for C8 on a database with no completed payments. -/
theorem stats_revenue_float_witness :
    (sampleJobDb.payments.filter (fun p => p.status == "completed") = []) ∧
    (get_stats (some sampleJobDb) none).total_revenue = JNum.jfloat 0 ∧
    (get_stats (some sampleJobDb) (some "boom")).status = 500 := by
  refine ⟨rfl, ?_, ?_⟩
  · exact (stats_revenue_float sampleJobDb "boom").1.2.2.2 rfl
  · exact (stats_revenue_float sampleJobDb "boom").2.1

/-- Whatever the employer lookup found, create_job appends exactly one
job row, built by newJobRow, to the jobs table. -/
theorem create_job_db_jobs (now : Int) (data : JobReq) (db : DB) :
    ∃ db2 eid, (create_job now (some data) (some db)).db = some db2 ∧
      db2.jobs = db.jobs ++ [newJobRow now data db.nextJobId eid] := by
  cases hE : lookupEmployerId db (data.phone.getD defaultPhone) with
  | some eid =>
    rw [create_job_eq_found now data db eid hE]
    exact ⟨_, eid, rfl, rfl⟩
  | none =>
    rw [create_job_eq_notfound now data db hE]
    exact ⟨_, db.nextEmployerId, rfl, rfl⟩

/-- A job row carrying amount 120 and type "daily" is shaped with the
salary string "K120/daily". -/
theorem shapeJob_salary_120_daily (now : Int) (db : DB) (j : Job)
    (h1 : j.payment_amount = some 120) (h2 : j.payment_type = some "daily") :
    (shapeJob now db j).salary = "K120/daily" := by
  show renderSalary j.payment_amount j.payment_type = "K120/daily"
  rw [h1, h2]
  decide

/-- A job row carrying amount 0 is shaped with the salary string
"Negotiable", whatever its payment type. -/
theorem shapeJob_salary_of_amount_zero (now : Int) (db : DB) (j : Job)
    (h1 : j.payment_amount = some 0) :
    (shapeJob now db j).salary = "Negotiable" := by
  show renderSalary j.payment_amount j.payment_type = "Negotiable"
  rw [h1]
  simp [renderSalary]

/-- C1: job creation never duplicates an employer row for a phone number
already present: with the request phone (defaulting to +260570528201),
if a row with that phone exists the employers table is unchanged and the
inserted job references the found id; if none exists exactly one
employer row with that phone is appended; and a second call resolving to
the same phone leaves the employer count unchanged. -/
theorem create_job_employer_dedup (now : Int) (data : JobReq) (db : DB) (phone : String)
    (hphone : phone = data.phone.getD defaultPhone) :
    ∃ db2, (create_job now (some data) (some db)).db = some db2 ∧
      (∀ eid, lookupEmployerId db phone = some eid →
        db2.employers = db.employers ∧
        ∃ j, db2.jobs = db.jobs ++ [j] ∧ j.employer_id = eid) ∧
      (lookupEmployerId db phone = none →
        ∃ e, db2.employers = db.employers ++ [e] ∧ e.phone_number = phone ∧
          db2.employers.length = db.employers.length + 1) ∧
      (∀ data2, data2.phone.getD defaultPhone = phone →
        ∃ db3, (create_job now (some data2) (some db2)).db = some db3 ∧
          db3.employers.length = db2.employers.length) := by
  subst hphone
  cases hE : lookupEmployerId db (data.phone.getD defaultPhone) with
  | some eid =>
    rw [create_job_eq_found now data db eid hE]
    refine ⟨dbAfterReuse now data db eid, rfl, ?_, ?_, ?_⟩
    · intro eid' h'
      injection h' with h''
      subst h''
      exact ⟨rfl, ⟨newJobRow now data db.nextJobId eid, rfl, rfl⟩⟩
    · intro h'
      exact Option.noConfusion h'
    · intro data2 hp2
      have hE2 : lookupEmployerId (dbAfterReuse now data db eid)
          (data2.phone.getD defaultPhone) = some eid := by
        rw [hp2]
        exact hE
      rw [create_job_eq_found now data2 _ eid hE2]
      exact ⟨dbAfterReuse now data2 (dbAfterReuse now data db eid) eid, rfl, rfl⟩
  | none =>
    rw [create_job_eq_notfound now data db hE]
    refine ⟨dbAfterInsert now data db, rfl, ?_, ?_, ?_⟩
    · intro eid' h'
      exact Option.noConfusion h'
    · intro h'
      refine ⟨newEmployerRow db.nextEmployerId (data.phone.getD defaultPhone)
        (data.company.getD "Individual Employer"), rfl, rfl, ?_⟩
      show (db.employers ++ [newEmployerRow db.nextEmployerId (data.phone.getD defaultPhone)
        (data.company.getD "Individual Employer")]).length = db.employers.length + 1
      rw [List.length_append]
      rfl
    · intro data2 hp2
      have hE2 : lookupEmployerId (dbAfterInsert now data db)
          (data2.phone.getD defaultPhone) = some db.nextEmployerId := by
        rw [hp2]
        exact lookupEmployerId_append_self db _ _ _ hE
      rw [create_job_eq_found now data2 _ db.nextEmployerId hE2]
      exact ⟨dbAfterReuse now data2 (dbAfterInsert now data db) db.nextEmployerId, rfl, rfl⟩

/-- Witness for C1: creating a job for the fresh phone +260999 on the
empty database. -/
theorem create_job_employer_dedup_witness :
    "+260999" = sampleReq.phone.getD defaultPhone ∧
    (∃ db2, (create_job 0 (some sampleReq) (some emptyDb)).db = some db2 ∧
      (∀ eid, lookupEmployerId emptyDb "+260999" = some eid →
        db2.employers = emptyDb.employers ∧
        ∃ j, db2.jobs = emptyDb.jobs ++ [j] ∧ j.employer_id = eid) ∧
      (lookupEmployerId emptyDb "+260999" = none →
        ∃ e, db2.employers = emptyDb.employers ++ [e] ∧ e.phone_number = "+260999" ∧
          db2.employers.length = emptyDb.employers.length + 1) ∧
      (∀ data2, data2.phone.getD defaultPhone = "+260999" →
        ∃ db3, (create_job 0 (some data2) (some db2)).db = some db3 ∧
          db3.employers.length = db2.employers.length)) := by
  exact ⟨rfl, create_job_employer_dedup 0 sampleReq emptyDb "+260999" rfl⟩

/-- C4 counterexample: an amount that is present but equal to 0 is
rendered "Negotiable", not "K0/daily", so the rendering rule does not
apply whenever the amount is merely present. -/
theorem salary_present_zero_counterexample :
    (some (0 : Int)).isSome = true ∧
    renderSalary (some 0) (some "daily") = "Negotiable" ∧
    renderSalary (some 0) (some "daily") ≠ "K0/daily" := by
  exact ⟨rfl, rfl, by decide⟩

/-- C4 (amended): a job created with salary 120 and type "daily" is
stored with payment_amount 120 and payment_type "daily" and is rendered
by the listing handler with salary "K120/daily"; in general the
rendering "K<amount>/<payment_type>" applies whenever the amount is
present and nonzero, and an absent or zero amount gives "Negotiable". -/
theorem salary_roundtrip (now : Int) (data : JobReq) (db : DB)
    (hsal : data.salary = some 120) (hty : data.type = some "daily") :
    (∃ db2 j, (create_job now (some data) (some db)).db = some db2 ∧
      db2.jobs.getLast? = some j ∧
      j.payment_amount = some 120 ∧ j.payment_type = some "daily" ∧
      (shapeJob now db2 j).salary = "K120/daily") ∧
    (∀ n pt, n ≠ 0 → renderSalary (some n) pt = "K" ++ toString n ++ "/" ++ pyStr pt) ∧
    (∀ pt, renderSalary none pt = "Negotiable") ∧
    (∀ pt, renderSalary (some 0) pt = "Negotiable") := by
  refine ⟨?_, ?_, fun pt => rfl, fun pt => rfl⟩
  · obtain ⟨db2, eid, h1, h2⟩ := create_job_db_jobs now data db
    have hpm : (newJobRow now data db.nextJobId eid).payment_amount = some 120 := by
      simp [newJobRow, hsal]
    have hpt : (newJobRow now data db.nextJobId eid).payment_type = some "daily" := by
      simp [newJobRow, hty]
    refine ⟨db2, newJobRow now data db.nextJobId eid, h1, ?_, hpm, hpt, ?_⟩
    · rw [h2]
      exact List.getLast?_concat _
    · exact shapeJob_salary_120_daily now db2 _ hpm hpt
  · intro n pt hn
    simp [renderSalary, hn]

/-- Witness for C4's amended theorem: the sample request with salary 120
and type "daily" on the empty database. -/
theorem salary_roundtrip_witness :
    sampleReq.salary = some 120 ∧ sampleReq.type = some "daily" ∧
    (∃ db2 j, (create_job 0 (some sampleReq) (some emptyDb)).db = some db2 ∧
      db2.jobs.getLast? = some j ∧
      j.payment_amount = some 120 ∧ j.payment_type = some "daily" ∧
      (shapeJob 0 db2 j).salary = "K120/daily") ∧
    renderSalary (some 120) (some "daily") = "K120/daily" := by
  refine ⟨rfl, rfl, (salary_roundtrip 0 sampleReq emptyDb rfl rfl).1, ?_⟩
  have h := (salary_roundtrip 0 sampleReq emptyDb rfl rfl).2.1 120 (some "daily") (by decide)
  rw [h]
  decide

/-- A sample request with no salary field, used to instantiate C10. -/
def sampleReqNoSalary : JobReq :=
  { phone := none, company := none, title := some "Cleaner",
    description := none, location := none, salary := none, type := none }

/-- C10: a job whose payment_amount is exactly 0 — in particular one
created with the salary field absent, which defaults to 0 — is rendered
with salary "Negotiable" rather than "K0/<payment_type>", because the
amount check is a truthiness test that treats 0 like null. -/
theorem zero_amount_negotiable (now : Int) (data : JobReq) (db : DB)
    (hsal : data.salary = none) :
    (∀ pt, renderSalary (some 0) pt = "Negotiable") ∧
    (∀ pt, renderSalary (some 0) pt = renderSalary none pt) ∧
    ∃ db2 j, (create_job now (some data) (some db)).db = some db2 ∧
      db2.jobs.getLast? = some j ∧ j.payment_amount = some 0 ∧
      (shapeJob now db2 j).salary = "Negotiable" := by
  refine ⟨fun pt => rfl, fun pt => rfl, ?_⟩
  obtain ⟨db2, eid, h1, h2⟩ := create_job_db_jobs now data db
  have hpm : (newJobRow now data db.nextJobId eid).payment_amount = some 0 := by
    simp [newJobRow, hsal]
  refine ⟨db2, newJobRow now data db.nextJobId eid, h1, ?_, hpm, ?_⟩
  · rw [h2]
    exact List.getLast?_concat _
  · exact shapeJob_salary_of_amount_zero now db2 _ hpm

/-- Witness for C10: a request with the salary field absent on the empty
database. -/
theorem zero_amount_negotiable_witness :
    sampleReqNoSalary.salary = none ∧
    renderSalary (some 0) (some "daily") = "Negotiable" ∧
    (∃ db2 j, (create_job 0 (some sampleReqNoSalary) (some emptyDb)).db = some db2 ∧
      db2.jobs.getLast? = some j ∧ j.payment_amount = some 0 ∧
      (shapeJob 0 db2 j).salary = "Negotiable") := by
  refine ⟨rfl, ?_, (zero_amount_negotiable 0 sampleReqNoSalary emptyDb rfl).2.2⟩
  exact (zero_amount_negotiable 0 sampleReqNoSalary emptyDb rfl).1 (some "daily")

end Jowa
